import Mathlib

/-!
Verification development for the IoCloud-MQTT typed topic registry and
publish/subscribe dispatch engine.

The definitions below are a shallow embedding of the C sources:

* `src/lib/GlobalConfig/global_config.c` / `.h` — topic registry and
  registration (`mqtt_topic_initialize`, `MAX_QUEUE_SIZE`,
  `MQTT_MAXIMUM_TOPIC_COUNT`, `MQTT_MAXIMUM_TOPIC_LENTGH`).
* `src/lib/MQTT/mqtt_client_task.c` — outbound serialization and publish
  pass (`mqtt_publish_response_read`, `mqtt_publish_response_write`,
  `mqtt_publish_topic`, `mqtt_publish`) and inbound routing
  (`mqtt_subscribe_topic_callback`), plus the task loop.
* `src/lib/App/application_task.c` — the actuator loop
  (`application_task_execute`).
* `src/lib/SNTP/sntp_task.c` — the time-sync task loop.

The record structs (`response_read_st`, `response_write_st`,
`command_write_st`, `command_config_st`), the `data_info` registry field,
the `DATA_STRUCT_*` type-tag enum, `snprintf_array` and the JSON decoders
are referenced by the C sources but their definitions are not present in
the repository snapshot; those are modelled from the spec and are marked
as such in their doc comments.

FreeRTOS queues are modelled as bounded lists of tagged records together
with the element size the queue was created with; a receive copies only
that many bytes into a zero-initialized destination, modelled by the
byte window `record_from_slot` applied at `xQueueReceive`.  `snprintf`
is modelled as building the full formatted string and comparing its
length against the destination buffer size, which matches the
truncation-and-length semantics the C code relies on.
-/

/-- ESP-IDF error codes used by the embedded sources. -/
inductive esp_err where
  | ESP_OK
  | ESP_FAIL
  | ESP_ERR_INVALID_ARG
  | ESP_ERR_NO_MEM
  | ESP_ERR_NOT_FOUND
  | ESP_ERR_INVALID_SIZE
  | ESP_ERR_INVALID_STATE
deriving DecidableEq, Repr, Inhabited

/-- Topic direction. Modelled from the spec: direction ∈ \x7bPUBLISH, SUBSCRIBE\x7d;
the field is read as `data_info.direction` in `mqtt_client_task.c` but its
declaration is missing from the snapshot. -/
inductive direction_t where
  | PUBLISH
  | SUBSCRIBE
deriving DecidableEq, Repr, Inhabited

/-- Payload type tags. Modelled from the spec: one payload type per topic.
The `DATA_STRUCT_*` enumerators are used in `mqtt_client_task.c` and
`application_task.c` both as type tags and as indices into the
`mqtt_topics` array; the enum declaration itself is missing from the
snapshot, so the usual C enumeration order 0,1,2,3 is modelled here. -/
inductive data_struct_t where
  | DATA_STRUCT_RESPONSE_READ
  | DATA_STRUCT_RESPONSE_WRITE
  | DATA_STRUCT_COMMAND_WRITE
  | DATA_STRUCT_COMMAND_CONFIG
deriving DecidableEq, Repr, Inhabited

open esp_err direction_t data_struct_t

/-- Numeric value of a `DATA_STRUCT_*` enumerator, used by the C sources to
index `global_config->mqtt_topics`. -/
def data_struct_index : data_struct_t → Nat
  | DATA_STRUCT_RESPONSE_READ => 0
  | DATA_STRUCT_RESPONSE_WRITE => 1
  | DATA_STRUCT_COMMAND_WRITE => 2
  | DATA_STRUCT_COMMAND_CONFIG => 3

/-- Reader mode of the command state machine (`application_task.c`,
`reader_mode_et`): READ = 0, WRITE = 1. -/
inductive reader_mode_et where
  | READ
  | WRITE
deriving DecidableEq, Repr, Inhabited

/-- Modelled from the spec: ReadResponse record (`response_read_st`) —
device identifier (unsigned 64-bit), sector index, block index, 16-byte
data buffer. The struct declaration is missing from the snapshot; the
field names follow their uses in `mqtt_client_task.c` and
`application_task.c`. -/
structure response_read_st where
  uuid : Nat
  sector : Nat
  block : Nat
  data : List Nat
deriving DecidableEq, Repr

instance : Inhabited response_read_st := ⟨⟨0, 0, 0, List.replicate 16 0⟩⟩

/-- Modelled from the spec: WriteResponse record (`response_write_st`) —
device identifier, sector index, block index, signed status code. -/
structure response_write_st where
  uuid : Nat
  sector : Nat
  block : Nat
  status : Int
deriving DecidableEq, Repr

instance : Inhabited response_write_st := ⟨⟨0, 0, 0, 0⟩⟩

/-- Modelled from the spec: WriteCommand record (`command_write_st`) —
sector index, block index, 16-byte data buffer. -/
structure command_write_st where
  sector : Nat
  block : Nat
  data : List Nat
deriving DecidableEq, Repr

instance : Inhabited command_write_st := ⟨⟨0, 0, List.replicate 16 0⟩⟩

/-- Modelled from the spec: CommandConfig record (`command_config_st`) —
sector index, block index, mode (READ or WRITE). -/
structure command_config_st where
  sector : Nat
  block : Nat
  mode : reader_mode_et
deriving DecidableEq, Repr

instance : Inhabited command_config_st := ⟨⟨0, 0, reader_mode_et.READ⟩⟩

/-- Generic sensor data (`application_external_types.h`): a 4-byte type
discriminant plus a 4-byte int/float union. -/
structure generic_sensor_data_st where
  type_tag : Nat
  value : Int
deriving DecidableEq, Repr, Inhabited

/-- Tagged record: one value moved through a topic queue.  The C queues
copy raw bytes; the tag records which struct the producer enqueued. -/
inductive record where
  | sensor (d : generic_sensor_data_st)
  | rread (r : response_read_st)
  | rwrite (r : response_write_st)
  | cwrite (c : command_write_st)
  | cconfig (c : command_config_st)
deriving DecidableEq, Repr

instance : Inhabited record := ⟨record.sensor default⟩

/-- Size in bytes of `generic_sensor_data_st` on the 32-bit ESP32 target:
a 4-byte enum discriminant plus a 4-byte int/float union. -/
def sizeof_generic_sensor_data : Nat := 8

/-- Modelled from the spec: size in bytes of a `response_read_st` record —
an 8-byte unsigned 64-bit identifier, sector and block indices (at least
one byte each) and a 16-byte data buffer; 26 bytes is the minimal layout
and any real layout is at least this large. -/
def sizeof_response_read : Nat := 26

/-- An allocated FreeRTOS queue: fixed capacity, the element size it was
created with, and its current contents (front of list = front of queue). -/
structure created_queue where
  capacity : Nat
  elem_size : Nat
  items : List record
deriving DecidableEq, Repr

/-- Model of `xQueueCreate(cap, elem)`: allocation may fail (NULL);
`alloc_ok` is the allocator oracle. -/
def xQueueCreate (alloc_ok : Bool) (cap elem : Nat) : Option created_queue :=
  if alloc_ok then some ⟨cap, elem, []⟩ else none

/-- Model of `xQueueSend` with a bounded wait: fails (pdFAIL) when the
queue is full, otherwise appends at the back; returns (pdPASS?, queue).
The C call copies only `elem_size` bytes into the slot; the model keeps
the producer's record in the item list and enforces the byte window at
`xQueueReceive` (see `record_from_slot`), so nothing beyond the window
is ever observable downstream. -/
def xQueueSend (q : created_queue) (r : record) : Bool × created_queue :=
  if q.items.length ≥ q.capacity then (false, q)
  else (true, { q with items := q.items ++ [r] })

/-- Modelled from the spec: the value recovered when a queue slot of
`elem_size` bytes is copied into a zero-initialized destination of the
record's type.  FreeRTOS queue operations copy exactly the element size
the queue was created with, so only the leading `elem_size` bytes of the
enqueued record survive the queue; every field lying wholly or partly
beyond that window reads as zero in the consumer.  Byte offsets follow
the spec's field order (section 3): the unsigned 64-bit `uuid` leads both
response records (bytes 0-7), followed by single-byte `sector` and
`block` and then `data`/`status`; the command records lead with
single-byte `sector` and `block` (for `command_config`, `mode` is a
4-byte enum at offset 4 whose zero value is READ);
`generic_sensor_data_st` is exactly 8 bytes and survives whole. -/
def record_from_slot (elem_size : Nat) : record → record
  | record.sensor d =>
    record.sensor { type_tag := if 4 ≤ elem_size then d.type_tag else 0,
                    value := if 8 ≤ elem_size then d.value else 0 }
  | record.rread r =>
    record.rread { uuid := if 8 ≤ elem_size then r.uuid else 0,
                   sector := if 9 ≤ elem_size then r.sector else 0,
                   block := if 10 ≤ elem_size then r.block else 0,
                   data := r.data.take (elem_size - 10) ++
                     List.replicate (16 - (elem_size - 10)) 0 }
  | record.rwrite r =>
    record.rwrite { uuid := if 8 ≤ elem_size then r.uuid else 0,
                    sector := if 9 ≤ elem_size then r.sector else 0,
                    block := if 10 ≤ elem_size then r.block else 0,
                    status := if 11 ≤ elem_size then r.status else 0 }
  | record.cwrite c =>
    record.cwrite { sector := if 1 ≤ elem_size then c.sector else 0,
                    block := if 2 ≤ elem_size then c.block else 0,
                    data := c.data.take (elem_size - 2) ++
                      List.replicate (16 - (elem_size - 2)) 0 }
  | record.cconfig c =>
    record.cconfig { sector := if 1 ≤ elem_size then c.sector else 0,
                     block := if 2 ≤ elem_size then c.block else 0,
                     mode := if 8 ≤ elem_size then c.mode
                             else reader_mode_et.READ }

/-- Model of `xQueueReceive` with a bounded wait: fails when the queue is
empty; otherwise removes the front slot and returns its contents as seen
through the queue's element-size window (`record_from_slot`): the C call
copies exactly `elem_size` bytes into the caller's zero-initialized
destination, so bytes beyond the window never leave the queue.  The item
list keeps the producer's record as the identity of the slot and the
window is applied at every read, which is observationally equivalent to
truncating at enqueue time because each queue here has one fixed element
size and one record type. -/
def xQueueReceive (q : created_queue) : Option (record × created_queue) :=
  match q.items with
  | [] => none
  | r :: rest =>
    some (record_from_slot q.elem_size r, { q with items := rest })

/-- Modelled from the spec: registry metadata `data_info` (direction and
payload type tag) read by `mqtt_client_task.c` from each topic entry; the
field is absent from the `mqtt_topic_st` declaration in the snapshot's
`global_config.h`. -/
structure data_info_st where
  type : data_struct_t
  direction : direction_t
deriving DecidableEq, Repr, Inhabited

/-- One registry entry (`mqtt_topic_st` in `global_config.h`): topic name
(64-byte buffer), QoS, queue handle; plus the modelled `data_info`. -/
structure mqtt_topic_st where
  topic : String
  qos : Nat
  queue : Option created_queue
  data_info : data_info_st
deriving DecidableEq, Repr, Inhabited

/-- The global configuration (`global_config_st` in `global_config.h`):
an array of `MQTT_MAXIMUM_TOPIC_COUNT` topic slots and the count of
initialized topics.  The event-group handle is not part of the registry
data and is omitted. -/
structure global_config_st where
  mqtt_topics : List mqtt_topic_st
  initalized_mqtt_topics_count : Nat
deriving DecidableEq, Repr, Inhabited

/-- MAX_QUEUE_SIZE from `global_config.c`. -/
def MAX_QUEUE_SIZE : Nat := 100

/-- MQTT_MAXIMUM_TOPIC_COUNT from `global_config.h`. -/
def MQTT_MAXIMUM_TOPIC_COUNT : Nat := 10

/-- MQTT_MAXIMUM_TOPIC_LENTGH from `global_config.h` (sic): size of the
`topic` char buffer. -/
def MQTT_MAXIMUM_TOPIC_LENTGH : Nat := 64

/-- Topic slot at array index `i` (reads of `mqtt_topics[i]`). -/
def topicAt (cfg : global_config_st) (i : Nat) : mqtt_topic_st :=
  cfg.mqtt_topics.getD i default

/-- Write back topic slot `i`. -/
def setTopicAt (cfg : global_config_st) (i : Nat) (t : mqtt_topic_st) :
    global_config_st :=
  { cfg with mqtt_topics := cfg.mqtt_topics.set i t }

/-- Embedding of `mqtt_topic_initialize` (`global_config.c`, lines 46-70).
The null-argument guard of the C function is outside this embedding (both
arguments are values here); the remaining control flow is verbatim:
capacity check first, then `count++` and the slot pointer is taken, then
`snprintf` writes the (possibly truncated) name into the slot and its
full length is checked, then the queue is created with element size
`sizeof(generic_sensor_data_st)`, then the QoS is stored.  The C code
writes the slot's fields one by one through the `topic` pointer; the
embedding accumulates the same field writes and stores the slot at each
exit, which leaves the identical registry at every return point.
`alloc_ok` is the allocator oracle for `xQueueCreate`. -/
def mqtt_topic_initialize (cfg : global_config_st) (topic_name : String)
    (qos : Nat) (alloc_ok : Bool) : esp_err × global_config_st :=
  if cfg.initalized_mqtt_topics_count ≥ MQTT_MAXIMUM_TOPIC_COUNT then
    (ESP_ERR_NO_MEM, cfg)
  else
    let idx := cfg.initalized_mqtt_topics_count
    let cfg1 : global_config_st :=
      { cfg with initalized_mqtt_topics_count := idx + 1 }
    -- snprintf(topic->topic, 64, "%s", name): writes at most 63 chars,
    -- returns the untruncated length.
    let written := (topic_name.toList.take (MQTT_MAXIMUM_TOPIC_LENTGH - 1)).asString
    let t1 := { topicAt cfg1 idx with topic := written }
    if topic_name.length ≥ MQTT_MAXIMUM_TOPIC_LENTGH then
      (ESP_ERR_INVALID_ARG, setTopicAt cfg1 idx t1)
    else
      match xQueueCreate alloc_ok MAX_QUEUE_SIZE sizeof_generic_sensor_data with
      | none => (ESP_ERR_NO_MEM, setTopicAt cfg1 idx t1)
      | some q =>
        (ESP_OK, setTopicAt cfg1 idx { t1 with queue := some q, qos := qos })

/-- A fresh registry: ten untouched slots, count zero. -/
def empty_config : global_config_st :=
  { mqtt_topics := List.replicate MQTT_MAXIMUM_TOPIC_COUNT default
    initalized_mqtt_topics_count := 0 }

/-- Register a list of names in sequence (allocator always succeeds),
collecting the per-call results. -/
def register_all (cfg : global_config_st) :
    List String → global_config_st × List esp_err
  | [] => (cfg, [])
  | n :: rest =>
    let step := mqtt_topic_initialize cfg n 1 true
    let tail := register_all step.2 rest
    (tail.1, step.1 :: tail.2)

/-- Does the registry already contain a topic with this name (among the
initialized slots)?  Used to state the duplicate-name claims; the C code
performs no such check. -/
def name_present (cfg : global_config_st) (n : String) : Bool :=
  (List.range cfg.initalized_mqtt_topics_count).any
    (fun i => (topicAt cfg i).topic == n)

/-- Queue contents of the topic slot at array index `i` (empty for a NULL
or absent handle). -/
def queue_items (cfg : global_config_st) (i : Nat) : List record :=
  match (topicAt cfg i).queue with
  | some q => q.items
  | none => []

/-- Bounded-wait dequeue from the queue of slot `i`
(`xQueueReceive(mqtt_topics[i].queue, ...)`). -/
def dequeue_at (cfg : global_config_st) (i : Nat) :
    Option (record × global_config_st) :=
  match (topicAt cfg i).queue with
  | none => none
  | some q =>
    match xQueueReceive q with
    | none => none
    | some (r, q2) =>
      some (r, setTopicAt cfg i { topicAt cfg i with queue := some q2 })

/-- Bounded-wait enqueue to the queue of slot `i`
(`xQueueSend(mqtt_topics[i].queue, ...)`); pdFAIL on a full queue leaves
the state unchanged (the record is dropped). -/
def enqueue_at (cfg : global_config_st) (i : Nat) (r : record) :
    Bool × global_config_st :=
  match (topicAt cfg i).queue with
  | none => (false, cfg)
  | some q =>
    let s := xQueueSend q r
    (s.1, setTopicAt cfg i { topicAt cfg i with queue := some s.2 })

/-- View a dequeued raw record as a `response_read_st` (the C code copies
the queue slot's bytes straight into a `response_read_st`; on a
homogeneous queue the tag always matches). -/
def as_response_read : record → response_read_st
  | record.rread r => r
  | _ => default

/-- View a dequeued raw record as a `response_write_st`. -/
def as_response_write : record → response_write_st
  | record.rwrite r => r
  | _ => default

/-- Modelled from the spec: `snprintf_array` (declared in the missing
utils header) formats a byte buffer as the textual array
`[<byte>, <byte>, ...]` used for the `data` field of the ReadResponse
wire payload. -/
def snprintf_array (data : List Nat) : String :=
  "[" ++ String.intercalate ", " (data.map Nat.repr) ++ "]"

/-- ReadResponse wire payload (`mqtt_publish_response_read`, format string
at `mqtt_client_task.c:174`): fields in the order timestamp, uid, block,
sector, data. -/
def response_read_payload (ts : String) (r : response_read_st) : String :=
  "\x7b\"timestamp\": \"" ++ ts ++ "\", \"uid\": " ++ Nat.repr r.uuid ++
    ", \"block\": " ++ Nat.repr r.block ++ ", \"sector\": " ++ Nat.repr r.sector ++
    ", \"data\": " ++ snprintf_array r.data ++ "\x7d"

/-- WriteResponse wire payload (`mqtt_publish_response_write`, format
string at `mqtt_client_task.c:236`): timestamp, uid, block, sector,
status. -/
def response_write_payload (ts : String) (r : response_write_st) : String :=
  "\x7b\"timestamp\": \"" ++ ts ++ "\", \"uid\": " ++ Nat.repr r.uuid ++
    ", \"block\": " ++ Nat.repr r.block ++ ", \"sector\": " ++ Nat.repr r.sector ++
    ", \"status\": " ++ toString r.status ++ "\x7d"

/-- Embedding of `mqtt_publish_response_read` (`mqtt_client_task.c`,
lines 121-192), null-pointer guards aside: a single bounded-wait dequeue
from `mqtt_topics[DATA_STRUCT_RESPONSE_READ].queue`; on an empty queue
the function returns ESP_ERR_NOT_FOUND without touching anything.  After
a successful dequeue the uid is rendered into a 16-byte buffer (length
check `>= 16`), the data array into a 256-byte buffer, and the payload
into the caller's 512-byte buffer; a failed size check drops the already
dequeued record. -/
def mqtt_publish_response_read (cfg : global_config_st) (ts : String) :
    esp_err × global_config_st × Option String :=
  match dequeue_at cfg (data_struct_index DATA_STRUCT_RESPONSE_READ) with
  | none => (ESP_ERR_NOT_FOUND, cfg, none)
  | some (rc, cfg2) =>
    let r := as_response_read rc
    if (Nat.repr r.uuid).length ≥ 16 then (ESP_ERR_INVALID_SIZE, cfg2, none)
    else if (snprintf_array r.data).length ≥ 256 then (ESP_ERR_INVALID_SIZE, cfg2, none)
    else
      let msg := response_read_payload ts r
      if msg.length ≥ 512 ∨ msg.length = 0 then (ESP_ERR_NO_MEM, cfg2, none)
      else (ESP_OK, cfg2, some msg)

/-- Embedding of `mqtt_publish_response_write` (`mqtt_client_task.c`,
lines 194-254), same structure with the WriteResponse payload. -/
def mqtt_publish_response_write (cfg : global_config_st) (ts : String) :
    esp_err × global_config_st × Option String :=
  match dequeue_at cfg (data_struct_index DATA_STRUCT_RESPONSE_WRITE) with
  | none => (ESP_ERR_NOT_FOUND, cfg, none)
  | some (rc, cfg2) =>
    let r := as_response_write rc
    if (Nat.repr r.uuid).length ≥ 16 then (ESP_ERR_INVALID_SIZE, cfg2, none)
    else
      let msg := response_write_payload ts r
      if msg.length ≥ 512 ∨ msg.length = 0 then (ESP_ERR_NO_MEM, cfg2, none)
      else (ESP_OK, cfg2, some msg)

/-- One message handed to the transport:
`esp_mqtt_client_publish(client, channel, payload, 0, 1, 0)` — the QoS
argument is the literal 1. -/
structure publish_out where
  channel : String
  payload : String
  qos : Nat
deriving DecidableEq, Repr

/-- Embedding of `mqtt_publish_topic` (`mqtt_client_task.c`, lines
265-306): serialize one record according to the topic's type tag; on
ESP_ERR_NOT_FOUND (empty queue) or any other failure nothing is
published; otherwise the channel `/titanium/<device-id>/<topic-name>` is
built into a 64-byte buffer and the message is transmitted. -/
def mqtt_publish_topic (cfg : global_config_st) (ts uid_str : String)
    (t : mqtt_topic_st) : global_config_st × List publish_out :=
  let res : esp_err × global_config_st × Option String :=
    match t.data_info.type with
    | DATA_STRUCT_RESPONSE_READ => mqtt_publish_response_read cfg ts
    | DATA_STRUCT_RESPONSE_WRITE => mqtt_publish_response_write cfg ts
    | _ => (ESP_FAIL, cfg, none)
  if res.1 ≠ ESP_OK then (res.2.1, [])
  else
    match res.2.2 with
    | none => (res.2.1, [])
    | some msg =>
      let channel := "/titanium/" ++ uid_str ++ "/" ++ t.topic
      if channel.length ≥ 64 then (res.2.1, [])
      else (res.2.1, [⟨channel, msg, 1⟩])

/-- One iteration of the topic loop of `mqtt_publish`
(`mqtt_client_task.c`, lines 370-378): skip a NULL queue, call
`mqtt_publish_topic` for a PUBLISH-direction topic, skip otherwise. -/
def mqtt_publish_step (ts uid_str : String)
    (acc : global_config_st × List publish_out) (i : Nat) :
    global_config_st × List publish_out :=
  let t := topicAt acc.1 i
  if t.queue.isNone then acc
  else if t.data_info.direction = PUBLISH then
    let st := mqtt_publish_topic acc.1 ts uid_str t
    (st.1, acc.2 ++ st.2)
  else acc

/-- Embedding of `mqtt_publish` (`mqtt_client_task.c`, lines 368-380): one
outbound pass.  Topics are visited in array (registration) order; NULL
queues are skipped; each PUBLISH-direction topic gets one
`mqtt_publish_topic` call. -/
def mqtt_publish (cfg : global_config_st) (ts uid_str : String) :
    global_config_st × List publish_out :=
  (List.range cfg.initalized_mqtt_topics_count).foldl
    (mqtt_publish_step ts uid_str) (cfg, [])

/-- The `strstr(haystack, needle) != NULL` test: does `ndl` occur as a
contiguous substring of `hay`? -/
def strstr_contains (hay ndl : List Char) : Bool :=
  match hay with
  | [] => ndl.isEmpty
  | c :: t => ndl.isPrefixOf (c :: t) || strstr_contains t ndl

/-- One iteration of the topic-scan loop of
`mqtt_subscribe_topic_callback` (`mqtt_client_task.c`, lines 314-359):
skip a NULL queue, skip PUBLISH-direction entries, skip a topic whose
name does not occur in the channel string; otherwise decode per the
topic's type tag and enqueue to the slot indexed by that tag.  After a
match the loop does NOT break: it continues with the next topic. -/
def mqtt_subscribe_cb_step (decodeW : String → command_write_st)
    (decodeC : String → command_config_st) (topic event_data : String)
    (acc : global_config_st) (i : Nat) : global_config_st :=
  let t := topicAt acc i
  if t.queue.isNone then acc
  else if t.data_info.direction = PUBLISH then acc
  else if ¬ strstr_contains topic.toList t.topic.toList then acc
  else
    match t.data_info.type with
    | DATA_STRUCT_COMMAND_WRITE =>
      (enqueue_at acc (data_struct_index DATA_STRUCT_COMMAND_WRITE)
        (record.cwrite (decodeW event_data))).2
    | DATA_STRUCT_COMMAND_CONFIG =>
      (enqueue_at acc (data_struct_index DATA_STRUCT_COMMAND_CONFIG)
        (record.cconfig (decodeC event_data))).2
    | _ => acc

/-- Embedding of `mqtt_subscribe_topic_callback` (`mqtt_client_task.c`,
lines 308-360): for one received transport message (channel string
`topic`, body `event_data`) it scans ALL initialized topics in order —
there is no break after a match — skipping NULL queues and
PUBLISH-direction entries; a topic matches when its name occurs inside
the channel string (`strstr`); on a match the body is decoded per the
topic's type tag and the decoded record is enqueued to
`mqtt_topics[<type enum>].queue` (the slot indexed by the type tag, not
by the loop index).  `decodeW`/`decodeC` stand for the JSON decoders
`parse_json_command_write` / `parse_json_command_config`, whose sources
are missing from the snapshot (modelled from the spec as total decode
functions; the C code ignores their return value and enqueues
unconditionally). -/
def mqtt_subscribe_topic_callback (cfg : global_config_st)
    (decodeW : String → command_write_st) (decodeC : String → command_config_st)
    (topic event_data : String) : global_config_st :=
  if event_data.length = 0 then cfg
  else
    (List.range cfg.initalized_mqtt_topics_count).foldl
      (mqtt_subscribe_cb_step decodeW decodeC topic event_data) cfg

/-- A queue with the parameters every queue in this system is created
with: capacity `MAX_QUEUE_SIZE`, element size
`sizeof(generic_sensor_data_st)`. -/
def mk_queue (items : List record) : created_queue :=
  ⟨MAX_QUEUE_SIZE, sizeof_generic_sensor_data, items⟩

/-- A fully built topic slot. -/
def std_topic (name : String) (d : direction_t) (ty : data_struct_t)
    (items : List record) : mqtt_topic_st :=
  ⟨name, 1, some (mk_queue items), ⟨ty, d⟩⟩

/-- Modelled from the spec scenario (the registration call sites are
missing from the snapshot): the reference registry with the four topics
`response_read` (PUBLISH), `response_write` (PUBLISH), `command_write`
(SUBSCRIBE), `command_config` (SUBSCRIBE) sitting at the array indices
given by their `DATA_STRUCT_*` tags, with the given queue contents. -/
def std_config (q0 q1 q2 q3 : List record) : global_config_st :=
  { mqtt_topics :=
      [std_topic "response_read" PUBLISH DATA_STRUCT_RESPONSE_READ q0,
       std_topic "response_write" PUBLISH DATA_STRUCT_RESPONSE_WRITE q1,
       std_topic "command_write" SUBSCRIBE DATA_STRUCT_COMMAND_WRITE q2,
       std_topic "command_config" SUBSCRIBE DATA_STRUCT_COMMAND_CONFIG q3] ++
      List.replicate 6 default
    initalized_mqtt_topics_count := 4 }

open reader_mode_et

/-- View a dequeued raw record as a `command_write_st`. -/
def as_command_write : record → command_write_st
  | record.cwrite c => c
  | _ => default

/-- Loop control: whether a task's loop body falls through to the next
iteration or breaks out of the loop. -/
inductive loop_ctl where
  | brk
  | cont
deriving DecidableEq, Repr

/-- Per-iteration inputs of the actuator loop supplied by the hardware
collaborators (PN532 driver): presence and UID of a tag, the outcome and
data of `read_sector`, the outcome of `write_sector`. -/
structure app_input where
  tag : Option Nat
  read_ok : Bool
  read_data : List Nat
  write_ok : Bool

/-- Initial value of the loop-local `command_config`
(`application_task.c`, lines 309-311): block 1, sector 1, mode READ. -/
def app_init_config : command_config_st := ⟨1, 1, READ⟩

/-- Embedding of one iteration of the `while (1)` loop of
`application_task_execute` (`application_task.c`, lines 313-359).  State:
the registry/queues, the loop-local `command_config`, and the last tag
UID (`uid` persists across iterations).  In READ mode a successful
tag-read enqueues a ReadResponse to
`mqtt_topics[DATA_STRUCT_RESPONSE_READ].queue`; in WRITE mode a
WriteCommand is dequeued from
`mqtt_topics[DATA_STRUCT_COMMAND_WRITE].queue` and a WriteResponse
(status 0 on success, -1 on failure) is enqueued to
`mqtt_topics[DATA_STRUCT_RESPONSE_WRITE].queue`.  No branch reads the
`command_config` topic's queue and no branch assigns to the loop's
`command_config`; the loop has no break or return. -/
def app_loop_body (cfg : global_config_st) (cc : command_config_st)
    (last_uid : Nat) (inp : app_input) :
    global_config_st × command_config_st × Nat × loop_ctl :=
  if cc.mode = READ then
    match inp.tag with
    | some uid =>
      if inp.read_ok then
        let r : response_read_st :=
          { uuid := uid, sector := cc.sector, block := cc.block,
            data := inp.read_data }
        ((enqueue_at cfg (data_struct_index DATA_STRUCT_RESPONSE_READ)
            (record.rread r)).2, cc, uid, loop_ctl.cont)
      else (cfg, cc, uid, loop_ctl.cont)
    | none => (cfg, cc, last_uid, loop_ctl.cont)
  else
    match dequeue_at cfg (data_struct_index DATA_STRUCT_COMMAND_WRITE) with
    | some (rc, cfg2) =>
      let cw := as_command_write rc
      let status : Int := if inp.write_ok then 0 else -1
      let rw : response_write_st :=
        { uuid := last_uid, sector := cw.sector, block := cw.block,
          status := status }
      ((enqueue_at cfg2 (data_struct_index DATA_STRUCT_RESPONSE_WRITE)
          (record.rwrite rw)).2, cc, last_uid, loop_ctl.cont)
    | none => (cfg, cc, last_uid, loop_ctl.cont)

/-- Run `n` iterations of the actuator loop under the input stream `ins`. -/
def app_run (ins : Nat → app_input) :
    Nat → global_config_st → command_config_st → Nat →
    global_config_st × command_config_st × Nat
  | 0, cfg, cc, u => (cfg, cc, u)
  | n + 1, cfg, cc, u =>
    let s := app_loop_body cfg cc u (ins n)
    app_run ins n s.1 s.2.1 s.2.2.1

/-- Module state of the SNTP task (`sntp_task.c`): the
`is_sntp_initialized` and `is_sntp_synced` statics and the TIME_SYNCED
bit of the firmware event group. -/
structure sntp_state where
  is_sntp_initialized : Bool
  is_sntp_synced : Bool
  time_synced_bit : Bool
deriving DecidableEq, Repr

/-- SNTP task state at startup. -/
def sntp_init_state : sntp_state := ⟨false, false, false⟩

/-- Embedding of `sntp_task_sync_time_obtain_time` (`sntp_task.c`, lines
41-64): `tm_year` is the observed wall-clock year minus 1900; a value
below 120 (year 2020) clears the TIME_SYNCED bit, otherwise the bit is
set and `is_sntp_synced` becomes true. -/
def sntp_task_sync_time_obtain_time (st : sntp_state) (tm_year : Int) :
    sntp_state :=
  let st1 := { st with is_sntp_initialized := true }
  if tm_year < 120 then { st1 with time_synced_bit := false }
  else { st1 with time_synced_bit := true, is_sntp_synced := true }

/-- One iteration of the SNTP task loop (`sntp_task.c`, lines 91-103):
when the captured event bits contain WIFI_CONNECTED_STA the time is
(re)checked; after the delay the loop breaks iff `is_sntp_synced`. -/
def sntp_loop_body (st : sntp_state) (wifi : Bool) (tm_year : Int) :
    sntp_state × loop_ctl :=
  let st2 := if wifi then sntp_task_sync_time_obtain_time st tm_year else st
  (st2, if st2.is_sntp_synced then loop_ctl.brk else loop_ctl.cont)

/-- Run the SNTP loop from iteration index `i` with the given fuel;
`years j` is the `tm_year` observed at iteration `j`.  The Bool is true
iff the loop exited via its break, after which the task deletes itself
(`vTaskDelete(NULL)` at `sntp_task.c:106`).  The pre-loop
`xEventGroupWaitBits(..., portMAX_DELAY)` returns only once
WIFI_CONNECTED_STA is set, and the captured bits are never refreshed
inside the loop, so `wifi` is a constant of the run. -/
def sntp_run (years : Nat → Int) (wifi : Bool) :
    Nat → Nat → sntp_state → sntp_state × Bool
  | _, 0, st => (st, false)
  | i, fuel + 1, st =>
    let s := sntp_loop_body st wifi (years i)
    match s.2 with
    | loop_ctl.brk => (s.1, true)
    | loop_ctl.cont => sntp_run years wifi (i + 1) fuel s.1

/-- Module state of the MQTT client task: the registry pointer target and
whether the client is started. -/
structure mqtt_task_state where
  cfg : global_config_st
  client_started : Bool
deriving DecidableEq, Repr

/-- One iteration of the `while (1)` loop of `mqtt_client_task_execute`
(`mqtt_client_task.c`, lines 442-462): gate on the connection flag and
the WIFI_CONNECTED_STA / TIME_SYNCED event bits, run the outbound pass
when connected and synced, start/stop the client otherwise.  The loop
has no break or return: every branch falls through to the next
iteration. -/
def mqtt_client_loop_body (st : mqtt_task_state)
    (is_mqtt_connected wifi synced : Bool) (ts uid_str : String) :
    mqtt_task_state × List publish_out × loop_ctl :=
  if is_mqtt_connected then
    if ¬ wifi then ({ st with client_started := false }, [], loop_ctl.cont)
    else if synced then
      let p := mqtt_publish st.cfg ts uid_str
      ({ st with cfg := p.1 }, p.2, loop_ctl.cont)
    else (st, [], loop_ctl.cont)
  else
    if wifi then ({ st with client_started := true }, [], loop_ctl.cont)
    else (st, [], loop_ctl.cont)

lemma count_setTopicAt (cfg : global_config_st) (i : Nat) (t : mqtt_topic_st) :
    (setTopicAt cfg i t).initalized_mqtt_topics_count
      = cfg.initalized_mqtt_topics_count := rfl

lemma length_setTopicAt (cfg : global_config_st) (i : Nat) (t : mqtt_topic_st) :
    (setTopicAt cfg i t).mqtt_topics.length = cfg.mqtt_topics.length := by
  simp [setTopicAt]

lemma topicAt_setTopicAt_ne (cfg : global_config_st) {i j : Nat}
    (t : mqtt_topic_st) (h : i ≠ j) :
    topicAt (setTopicAt cfg i t) j = topicAt cfg j := by
  simp [topicAt, setTopicAt, List.getElem?_set_ne h]

lemma topicAt_setTopicAt_eq (cfg : global_config_st) {i : Nat}
    (t : mqtt_topic_st) (h : i < cfg.mqtt_topics.length) :
    topicAt (setTopicAt cfg i t) i = t := by
  simp [topicAt, setTopicAt, List.getElem?_set_eq_of_lt t h]

lemma init_at_capacity (cfg : global_config_st) (n : String) (q : Nat)
    (a : Bool) (h : MQTT_MAXIMUM_TOPIC_COUNT ≤ cfg.initalized_mqtt_topics_count) :
    mqtt_topic_initialize cfg n q a = (ESP_ERR_NO_MEM, cfg) := by
  unfold mqtt_topic_initialize
  simp [ge_iff_le, h]

lemma init_success (cfg : global_config_st) (n : String) (q : Nat)
    (hc : cfg.initalized_mqtt_topics_count < MQTT_MAXIMUM_TOPIC_COUNT)
    (hn : n.length < MQTT_MAXIMUM_TOPIC_LENTGH) :
    mqtt_topic_initialize cfg n q true =
      (ESP_OK,
       { cfg with
          mqtt_topics := cfg.mqtt_topics.set cfg.initalized_mqtt_topics_count
            { topic := n, qos := q, queue := some (mk_queue []),
              data_info :=
                (topicAt cfg cfg.initalized_mqtt_topics_count).data_info }
          initalized_mqtt_topics_count :=
            cfg.initalized_mqtt_topics_count + 1 }) := by
  have hwrit : (n.toList.take (MQTT_MAXIMUM_TOPIC_LENTGH - 1)).asString = n := by
    have hle : n.toList.length ≤ MQTT_MAXIMUM_TOPIC_LENTGH - 1 := by
      have h1 : n.toList.length = n.length := rfl
      simp only [MQTT_MAXIMUM_TOPIC_LENTGH] at hn ⊢
      omega
    rw [List.take_of_length_le hle, String.asString_toList]
  unfold mqtt_topic_initialize
  rw [if_neg (not_le.mpr hc)]
  simp only [hwrit]
  rw [if_neg (not_le.mpr hn)]
  simp only [xQueueCreate, if_pos rfl]
  have h1 : topicAt { cfg with initalized_mqtt_topics_count :=
      cfg.initalized_mqtt_topics_count + 1 } cfg.initalized_mqtt_topics_count
      = topicAt cfg cfg.initalized_mqtt_topics_count := rfl
  simp only [h1]
  rfl

lemma init_name_too_long (cfg : global_config_st) (n : String) (q : Nat)
    (a : Bool) (hc : cfg.initalized_mqtt_topics_count < MQTT_MAXIMUM_TOPIC_COUNT)
    (hn : MQTT_MAXIMUM_TOPIC_LENTGH ≤ n.length) :
    ( mqtt_topic_initialize cfg n q a).1 = ESP_ERR_INVALID_ARG ∧
    ( mqtt_topic_initialize cfg n q a).2.initalized_mqtt_topics_count
      = cfg.initalized_mqtt_topics_count + 1 := by
  unfold mqtt_topic_initialize
  rw [if_neg (not_le.mpr hc), if_pos (show n.length ≥ MQTT_MAXIMUM_TOPIC_LENTGH from hn)]
  exact ⟨rfl, rfl⟩

lemma init_alloc_fail (cfg : global_config_st) (n : String) (q : Nat)
    (hc : cfg.initalized_mqtt_topics_count < MQTT_MAXIMUM_TOPIC_COUNT)
    (hn : n.length < MQTT_MAXIMUM_TOPIC_LENTGH) :
    ( mqtt_topic_initialize cfg n q false).1 = ESP_ERR_NO_MEM ∧
    ( mqtt_topic_initialize cfg n q false).2.initalized_mqtt_topics_count
      = cfg.initalized_mqtt_topics_count + 1 := by
  unfold mqtt_topic_initialize
  rw [if_neg (not_le.mpr hc), if_neg (not_le.mpr hn)]
  exact ⟨rfl, rfl⟩

lemma init_count_le (cfg : global_config_st) (n : String) (q : Nat) (a : Bool) :
    ( mqtt_topic_initialize cfg n q a).2.initalized_mqtt_topics_count
      ≤ cfg.initalized_mqtt_topics_count + 1 := by
  unfold mqtt_topic_initialize
  split
  · exact Nat.le_succ _
  · split
    · exact le_refl _
    · split
      · exact le_refl _
      · exact le_refl _

lemma register_all_ok (names : List String) :
    ∀ (cfg : global_config_st),
    (∀ n ∈ names, n.length < MQTT_MAXIMUM_TOPIC_LENTGH) →
    cfg.initalized_mqtt_topics_count + names.length ≤ MQTT_MAXIMUM_TOPIC_COUNT →
    (register_all cfg names).2 = List.replicate names.length ESP_OK ∧
    (register_all cfg names).1.initalized_mqtt_topics_count
      = cfg.initalized_mqtt_topics_count + names.length := by
  induction names with
  | nil => intro cfg _ _; simp [register_all]
  | cons n ns ih =>
    intro cfg hv hle
    have hc : cfg.initalized_mqtt_topics_count < MQTT_MAXIMUM_TOPIC_COUNT := by
      simp only [List.length_cons] at hle; omega
    have hstep := init_success cfg n 1 hc (hv n (List.mem_cons_self n ns))
    have hcount : ( mqtt_topic_initialize cfg n 1 true).2.initalized_mqtt_topics_count
        = cfg.initalized_mqtt_topics_count + 1 := by rw [hstep]
    have hrec := ih ( mqtt_topic_initialize cfg n 1 true).2
      (fun m hm => hv m (List.mem_cons_of_mem _ hm))
      (by rw [hcount]; simp only [List.length_cons] at hle; omega)
    have hres : ( mqtt_topic_initialize cfg n 1 true).1 = ESP_OK := by rw [hstep]
    refine ⟨?_, ?_⟩
    · simp only [register_all]
      rw [hres, hrec.1]
      simp [List.replicate_succ]
    · simp only [register_all]
      have h2 := hrec.2
      rw [hcount] at h2
      simp only [List.length_cons]
      omega

lemma register_all_append (l1 l2 : List String) :
    ∀ cfg, register_all cfg (l1 ++ l2)
      = ((register_all (register_all cfg l1).1 l2).1,
         (register_all cfg l1).2 ++ (register_all (register_all cfg l1).1 l2).2) := by
  induction l1 with
  | nil => intro cfg; simp [register_all]
  | cons n ns ih => intro cfg; simp [register_all, ih]

lemma register_all_count_le (names : List String) :
    ∀ cfg : global_config_st,
    cfg.initalized_mqtt_topics_count ≤ MQTT_MAXIMUM_TOPIC_COUNT →
    (register_all cfg names).1.initalized_mqtt_topics_count
      ≤ MQTT_MAXIMUM_TOPIC_COUNT := by
  induction names with
  | nil => intro cfg h; simpa [register_all] using h
  | cons n ns ih =>
    intro cfg h
    simp only [register_all]
    apply ih
    rcases le_or_lt MQTT_MAXIMUM_TOPIC_COUNT cfg.initalized_mqtt_topics_count with hge | hlt
    · rw [init_at_capacity cfg n 1 true hge]; exact h
    · have := init_count_le cfg n 1 true
      omega

/-- C5: for every sequence of registrations with valid names, each of the
first 10 registrations succeeds (ESP_OK); the 11th fails with
ESP_ERR_NO_MEM and leaves the registry exactly as it was after the first
10 (the first 10 topics intact); and after any sequence of registrations
the registry never holds more than MQTT_MAXIMUM_TOPIC_COUNT = 10 topics. -/
theorem spec_c5_registration_capacity :
    (∀ names : List String,
      names.length = MQTT_MAXIMUM_TOPIC_COUNT + 1 →
      (∀ n ∈ names, n.length < MQTT_MAXIMUM_TOPIC_LENTGH) →
      (register_all empty_config names).2
          = List.replicate MQTT_MAXIMUM_TOPIC_COUNT ESP_OK ++ [ESP_ERR_NO_MEM] ∧
      (register_all empty_config names).1
          = (register_all empty_config (names.take MQTT_MAXIMUM_TOPIC_COUNT)).1 ∧
      (register_all empty_config names).1.initalized_mqtt_topics_count
          = MQTT_MAXIMUM_TOPIC_COUNT) ∧
    (∀ names : List String,
      (register_all empty_config names).1.initalized_mqtt_topics_count
        ≤ MQTT_MAXIMUM_TOPIC_COUNT) := by
  constructor
  · intro names hlen hv
    have hsplit := (List.take_append_drop MQTT_MAXIMUM_TOPIC_COUNT names).symm
    have hlen10 : (names.take MQTT_MAXIMUM_TOPIC_COUNT).length
        = MQTT_MAXIMUM_TOPIC_COUNT := by
      rw [List.length_take]; omega
    have hdrop1 : (names.drop MQTT_MAXIMUM_TOPIC_COUNT).length = 1 := by
      rw [List.length_drop]; omega
    obtain ⟨x, hx⟩ := List.length_eq_one.mp hdrop1
    have hok := register_all_ok (names.take MQTT_MAXIMUM_TOPIC_COUNT)
      empty_config
      (fun m hm => hv m (List.take_subset _ _ hm))
      (by rw [hlen10]; simp [empty_config])
    have hcnt10 : (register_all empty_config
        (names.take MQTT_MAXIMUM_TOPIC_COUNT)).1.initalized_mqtt_topics_count
        = MQTT_MAXIMUM_TOPIC_COUNT := by
      rw [hok.2, hlen10]; simp [empty_config]
    have hfull := init_at_capacity
      (register_all empty_config (names.take MQTT_MAXIMUM_TOPIC_COUNT)).1
      x 1 true (le_of_eq hcnt10.symm)
    have hone : register_all
        (register_all empty_config (names.take MQTT_MAXIMUM_TOPIC_COUNT)).1 [x]
        = ((register_all empty_config (names.take MQTT_MAXIMUM_TOPIC_COUNT)).1,
           [ESP_ERR_NO_MEM]) := by
      simp [register_all, hfull]
    constructor
    · conv_lhs => rw [hsplit, hx]
      rw [register_all_append, hone, hok.1, hlen10]
    constructor
    · conv_lhs => rw [hsplit, hx]
      rw [register_all_append, hone]
    · conv_lhs => rw [hsplit, hx]
      rw [register_all_append, hone]
      exact hcnt10
  · intro names
    exact register_all_count_le names empty_config (by simp [empty_config])

/-- Witness for C5 at a concrete sequence of 11 valid names. -/
theorem spec_c5_registration_capacity_witness :
    (register_all empty_config
        ["t0", "t1", "t2", "t3", "t4", "t5", "t6", "t7", "t8", "t9", "t10"]).2
      = List.replicate MQTT_MAXIMUM_TOPIC_COUNT ESP_OK ++ [ESP_ERR_NO_MEM] ∧
    (register_all empty_config
        ["t0", "t1", "t2", "t3", "t4", "t5", "t6", "t7", "t8", "t9", "t10"]).1.initalized_mqtt_topics_count
      = MQTT_MAXIMUM_TOPIC_COUNT :=
  ⟨(spec_c5_registration_capacity.1 _ (by decide) (by decide)).1,
   (spec_c5_registration_capacity.1 _ (by decide) (by decide)).2.2⟩

/-- C6 counterexample: registering the name "a" twice from a fresh
registry succeeds BOTH times (the second call does not fail with any
duplicate-name error) and leaves two entries carrying the same name, so
registered topic names are not unique. -/
theorem spec_c6_duplicate_name_counterexample :
    (register_all empty_config ["a", "a"]).2 = [ESP_OK, ESP_OK] ∧
    (register_all empty_config ["a", "a"]).1.initalized_mqtt_topics_count = 2 ∧
    (topicAt (register_all empty_config ["a", "a"]).1 0).topic = "a" ∧
    (topicAt (register_all empty_config ["a", "a"]).1 1).topic = "a" := by
  decide

/-- C6 amended: `mqtt_topic_initialize` performs no duplicate-name check:
registering a name that is already present in the registry succeeds
(returns ESP_OK, subject only to the capacity and length checks) and
appends a second entry bearing that same name. -/
theorem spec_c6_duplicate_name_amended (cfg : global_config_st) (n : String)
    (q : Nat) (hc : cfg.initalized_mqtt_topics_count < MQTT_MAXIMUM_TOPIC_COUNT)
    (hn : n.length < MQTT_MAXIMUM_TOPIC_LENTGH)
    (hdup : name_present cfg n = true)
    (hlen : cfg.initalized_mqtt_topics_count < cfg.mqtt_topics.length) :
    ( mqtt_topic_initialize cfg n q true).1 = ESP_OK ∧
    ( mqtt_topic_initialize cfg n q true).2.initalized_mqtt_topics_count
      = cfg.initalized_mqtt_topics_count + 1 ∧
    (topicAt ( mqtt_topic_initialize cfg n q true).2
        cfg.initalized_mqtt_topics_count).topic = n := by
  have hstep := init_success cfg n q hc hn
  refine ⟨by rw [hstep], by rw [hstep], ?_⟩
  rw [hstep]
  have : topicAt
      { cfg with
         mqtt_topics := cfg.mqtt_topics.set cfg.initalized_mqtt_topics_count
           { topic := n, qos := q, queue := some (mk_queue []),
             data_info :=
               (topicAt cfg cfg.initalized_mqtt_topics_count).data_info }
         initalized_mqtt_topics_count := cfg.initalized_mqtt_topics_count + 1 }
      cfg.initalized_mqtt_topics_count
      = { topic := n, qos := q, queue := some (mk_queue []),
          data_info :=
            (topicAt cfg cfg.initalized_mqtt_topics_count).data_info } := by
    simp [topicAt, List.getElem?_set_eq_of_lt _ hlen]
  rw [this]

/-- Witness for the amended C6 at a concrete registry already holding
the name "a". -/
theorem spec_c6_duplicate_name_amended_witness :
    ( mqtt_topic_initialize (register_all empty_config ["a"]).1 "a" 1 true).1
      = ESP_OK ∧
    (topicAt ( mqtt_topic_initialize
        (register_all empty_config ["a"]).1 "a" 1 true).2 1).topic = "a" :=
  ⟨(spec_c6_duplicate_name_amended (register_all empty_config ["a"]).1 "a" 1
      (by decide) (by decide) (by decide) (by decide)).1,
   (spec_c6_duplicate_name_amended (register_all empty_config ["a"]).1 "a" 1
      (by decide) (by decide) (by decide) (by decide)).2.2⟩

/-- C7 counterexample: registering a 64-character name on a fresh
registry returns ESP_ERR_INVALID_ARG, yet the registry is changed — the
initialized-topic count has been incremented to 1 and the first slot
holds the truncated name — so error returns are not atomic. -/
theorem spec_c7_registration_atomicity_counterexample :
    ( mqtt_topic_initialize empty_config
        (String.mk (List.replicate 64 'x')) 1 true).1 = ESP_ERR_INVALID_ARG ∧
    ( mqtt_topic_initialize empty_config
        (String.mk (List.replicate 64 'x')) 1 true).2.initalized_mqtt_topics_count
      = 1 ∧
    (topicAt ( mqtt_topic_initialize empty_config
        (String.mk (List.replicate 64 'x')) 1 true).2 0).topic
      = String.mk (List.replicate 63 'x') ∧
    ( mqtt_topic_initialize empty_config
        (String.mk (List.replicate 64 'x')) 1 true).2 ≠ empty_config := by
  decide

/-- C7 amended: registration is atomic only for the capacity-exceeded
error (and for the null-argument guard, which precedes any state
change); when the name is too long, or when the queue allocation fails,
the error return leaves the initialized-topic count already incremented
and a partially built slot behind. -/
theorem spec_c7_registration_atomicity :
    (∀ (cfg : global_config_st) (n : String) (q : Nat) (a : Bool),
      MQTT_MAXIMUM_TOPIC_COUNT ≤ cfg.initalized_mqtt_topics_count →
      mqtt_topic_initialize cfg n q a = (ESP_ERR_NO_MEM, cfg)) ∧
    (∀ (cfg : global_config_st) (n : String) (q : Nat) (a : Bool),
      cfg.initalized_mqtt_topics_count < MQTT_MAXIMUM_TOPIC_COUNT →
      MQTT_MAXIMUM_TOPIC_LENTGH ≤ n.length →
      ( mqtt_topic_initialize cfg n q a).1 = ESP_ERR_INVALID_ARG ∧
      ( mqtt_topic_initialize cfg n q a).2.initalized_mqtt_topics_count
        = cfg.initalized_mqtt_topics_count + 1) ∧
    (∀ (cfg : global_config_st) (n : String) (q : Nat),
      cfg.initalized_mqtt_topics_count < MQTT_MAXIMUM_TOPIC_COUNT →
      n.length < MQTT_MAXIMUM_TOPIC_LENTGH →
      ( mqtt_topic_initialize cfg n q false).1 = ESP_ERR_NO_MEM ∧
      ( mqtt_topic_initialize cfg n q false).2.initalized_mqtt_topics_count
        = cfg.initalized_mqtt_topics_count + 1) :=
  ⟨fun cfg n q a h => init_at_capacity cfg n q a h,
   fun cfg n q a hc hn => init_name_too_long cfg n q a hc hn,
   fun cfg n q hc hn => init_alloc_fail cfg n q hc hn⟩

/-- Witness for the amended C7: a full registry rejects atomically; a
too-long name and a failed allocation both leave the count incremented. -/
theorem spec_c7_registration_atomicity_witness :
    mqtt_topic_initialize (register_all empty_config
        ["t0", "t1", "t2", "t3", "t4", "t5", "t6", "t7", "t8", "t9"]).1
        "t10" 1 true
      = (ESP_ERR_NO_MEM, (register_all empty_config
        ["t0", "t1", "t2", "t3", "t4", "t5", "t6", "t7", "t8", "t9"]).1) ∧
    ( mqtt_topic_initialize empty_config
        (String.mk (List.replicate 64 'y')) 1 false).2.initalized_mqtt_topics_count
      = 1 ∧
    ( mqtt_topic_initialize empty_config "response_read" 1 false).2.initalized_mqtt_topics_count
      = 1 :=
  ⟨spec_c7_registration_atomicity.1 _ "t10" 1 true (by decide),
   (spec_c7_registration_atomicity.2.1 empty_config _ 1 false (by decide)
      (by decide)).2,
   (spec_c7_registration_atomicity.2.2 empty_config "response_read" 1
      (by decide) (by decide)).2⟩

/-- C2 evaluated at its failing input: registering "response_read"
succeeds and its queue is created with capacity MAX_QUEUE_SIZE = 100
slots (that part of the claim holds), but the element size of every
created queue is sizeof(generic_sensor_data_st) = 8 bytes, which is not
the size of the `response_read_st` records (at least 26 bytes) later
enqueued to and dequeued from that queue. -/
theorem spec_c2_queue_element_size :
    ( mqtt_topic_initialize empty_config "response_read" 1 true).1 = ESP_OK ∧
    (topicAt ( mqtt_topic_initialize empty_config "response_read" 1 true).2 0).queue
      = some { capacity := MAX_QUEUE_SIZE,
               elem_size := sizeof_generic_sensor_data, items := [] } ∧
    MAX_QUEUE_SIZE = 100 ∧
    sizeof_generic_sensor_data = 8 ∧
    sizeof_response_read = 26 ∧
    sizeof_generic_sensor_data ≠ sizeof_response_read := by
  decide

lemma dequeue_at_empty (cfg : global_config_st) (i : Nat)
    (h : queue_items cfg i = []) : dequeue_at cfg i = none := by
  unfold queue_items at h
  unfold dequeue_at
  cases hq : (topicAt cfg i).queue with
  | none => rfl
  | some q =>
    rw [hq] at h
    have h2 : q.items = [] := h
    simp [xQueueReceive, h2]

lemma response_read_empty (cfg : global_config_st) (ts : String)
    (h : queue_items cfg (data_struct_index DATA_STRUCT_RESPONSE_READ) = []) :
    mqtt_publish_response_read cfg ts = (ESP_ERR_NOT_FOUND, cfg, none) := by
  unfold mqtt_publish_response_read
  rw [dequeue_at_empty cfg _ h]

lemma response_write_empty (cfg : global_config_st) (ts : String)
    (h : queue_items cfg (data_struct_index DATA_STRUCT_RESPONSE_WRITE) = []) :
    mqtt_publish_response_write cfg ts = (ESP_ERR_NOT_FOUND, cfg, none) := by
  unfold mqtt_publish_response_write
  rw [dequeue_at_empty cfg _ h]

/-- C10: an outbound visit to a PUBLISH-direction topic whose queue is
empty is a no-op: the bounded-wait dequeue reports ESP_ERR_NOT_FOUND,
nothing is transmitted, and the whole registry (every topic entry and
every queue) is returned unchanged. -/
theorem spec_c10_empty_queue_frame (cfg : global_config_st)
    (ts uid_str : String) (t : mqtt_topic_st)
    (hdir : t.data_info.direction = PUBLISH)
    (hemp : (t.data_info.type = DATA_STRUCT_RESPONSE_READ ∧
              queue_items cfg (data_struct_index DATA_STRUCT_RESPONSE_READ) = []) ∨
            (t.data_info.type = DATA_STRUCT_RESPONSE_WRITE ∧
              queue_items cfg (data_struct_index DATA_STRUCT_RESPONSE_WRITE) = [])) :
    mqtt_publish_topic cfg ts uid_str t = (cfg, []) ∧
    (t.data_info.type = DATA_STRUCT_RESPONSE_READ →
      mqtt_publish_response_read cfg ts = (ESP_ERR_NOT_FOUND, cfg, none)) ∧
    (t.data_info.type = DATA_STRUCT_RESPONSE_WRITE →
      mqtt_publish_response_write cfg ts = (ESP_ERR_NOT_FOUND, cfg, none)) := by
  rcases hemp with ⟨hty, hq⟩ | ⟨hty, hq⟩
  · have hr := response_read_empty cfg ts hq
    refine ⟨?_, fun _ => hr, fun hw => ?_⟩
    · unfold mqtt_publish_topic
      rw [hty, hr]
      simp
    · exact absurd (hty.symm.trans hw) (by decide)
  · have hr := response_write_empty cfg ts hq
    refine ⟨?_, fun hw => ?_, fun _ => hr⟩
    · unfold mqtt_publish_topic
      rw [hty, hr]
      simp
    · exact absurd (hty.symm.trans hw) (by decide)

/-- Witness for C10: the reference registry with all queues empty. -/
theorem spec_c10_empty_queue_frame_witness :
    mqtt_publish_topic (std_config [] [] [] []) "2024-12-24T15:30:45"
        "AABBCCDDEEFF" (topicAt (std_config [] [] [] []) 0)
      = (std_config [] [] [] [], []) ∧
    mqtt_publish_response_read (std_config [] [] [] []) "2024-12-24T15:30:45"
      = (ESP_ERR_NOT_FOUND, std_config [] [] [] [], none) :=
  ⟨(spec_c10_empty_queue_frame (std_config [] [] [] []) _ _ _ (by decide)
      (Or.inl ⟨by decide, by decide⟩)).1,
   (spec_c10_empty_queue_frame (std_config [] [] [] []) "2024-12-24T15:30:45"
      "AABBCCDDEEFF" (topicAt (std_config [] [] [] []) 0) (by decide)
      (Or.inl ⟨by decide, by decide⟩)).2.1 (by decide)⟩

/-- State component of one `mqtt_publish` loop iteration (helper for
reasoning about the pass; the transmitted messages do not feed back into
the registry). -/
def mqtt_publish_step_fst (ts uid_str : String) (c : global_config_st)
    (i : Nat) : global_config_st :=
  let t := topicAt c i
  if t.queue.isNone then c
  else if t.data_info.direction = PUBLISH then
    (mqtt_publish_topic c ts uid_str t).1
  else c

lemma mqtt_publish_step_fst_eq (ts us : String)
    (acc : global_config_st × List publish_out) (i : Nat) :
    (mqtt_publish_step ts us acc i).1 = mqtt_publish_step_fst ts us acc.1 i := by
  unfold mqtt_publish_step mqtt_publish_step_fst
  dsimp only
  split
  · rfl
  · split
    · rfl
    · rfl

lemma mqtt_publish_step_len (ts us : String)
    (acc : global_config_st × List publish_out) (i : Nat)
    (h : ∀ cfg t, (mqtt_publish_topic cfg ts us t).2.length ≤ 1) :
    (mqtt_publish_step ts us acc i).2.length ≤ acc.2.length + 1 := by
  unfold mqtt_publish_step
  dsimp only
  split
  · omega
  · split
    · simp only [List.length_append]
      have := h acc.1 (topicAt acc.1 i)
      omega
    · omega

lemma mqtt_publish_topic_len (cfg : global_config_st) (ts us : String)
    (t : mqtt_topic_st) : (mqtt_publish_topic cfg ts us t).2.length ≤ 1 := by
  unfold mqtt_publish_topic
  dsimp only
  repeat' split
  all_goals simp

lemma mqtt_publish_foldl_fst (ts us : String) :
    ∀ (l : List Nat) (acc : global_config_st × List publish_out),
    (l.foldl (mqtt_publish_step ts us) acc).1
      = l.foldl (mqtt_publish_step_fst ts us) acc.1 := by
  intro l
  induction l with
  | nil => intro acc; rfl
  | cons i rest ih =>
    intro acc
    simp only [List.foldl_cons]
    rw [ih, mqtt_publish_step_fst_eq]

lemma mqtt_publish_foldl_len (ts us : String) :
    ∀ (l : List Nat) (acc : global_config_st × List publish_out),
    (l.foldl (mqtt_publish_step ts us) acc).2.length ≤ acc.2.length + l.length := by
  intro l
  induction l with
  | nil => intro acc; simp
  | cons i rest ih =>
    intro acc
    simp only [List.foldl_cons, List.length_cons]
    have h1 := mqtt_publish_step_len ts us acc i
      (fun cfg t => mqtt_publish_topic_len cfg ts us t)
    have h2 := ih (mqtt_publish_step ts us acc i)
    omega

lemma mqtt_publish_response_read_fst (cfg : global_config_st) (ts : String) :
    (mqtt_publish_response_read cfg ts).2.1
      = match dequeue_at cfg (data_struct_index DATA_STRUCT_RESPONSE_READ) with
        | none => cfg
        | some s => s.2 := by
  unfold mqtt_publish_response_read
  cases dequeue_at cfg (data_struct_index DATA_STRUCT_RESPONSE_READ) with
  | none => rfl
  | some s =>
    obtain ⟨rc, c2⟩ := s
    dsimp only
    repeat' split
    all_goals rfl

lemma mqtt_publish_response_write_fst (cfg : global_config_st) (ts : String) :
    (mqtt_publish_response_write cfg ts).2.1
      = match dequeue_at cfg (data_struct_index DATA_STRUCT_RESPONSE_WRITE) with
        | none => cfg
        | some s => s.2 := by
  unfold mqtt_publish_response_write
  cases dequeue_at cfg (data_struct_index DATA_STRUCT_RESPONSE_WRITE) with
  | none => rfl
  | some s =>
    obtain ⟨rc, c2⟩ := s
    dsimp only
    repeat' split
    all_goals rfl

lemma mqtt_publish_topic_fst (cfg : global_config_st) (ts us : String)
    (t : mqtt_topic_st) :
    (mqtt_publish_topic cfg ts us t).1
      = match t.data_info.type with
        | DATA_STRUCT_RESPONSE_READ => (mqtt_publish_response_read cfg ts).2.1
        | DATA_STRUCT_RESPONSE_WRITE => (mqtt_publish_response_write cfg ts).2.1
        | _ => cfg := by
  unfold mqtt_publish_topic
  dsimp only
  cases t.data_info.type <;> dsimp only <;> (repeat' split) <;>
    first | rfl | simp_all

lemma dequeue_at_std_0_nil (q1 q2 q3 : List record) :
    dequeue_at (std_config [] q1 q2 q3) 0 = none := rfl

lemma dequeue_at_std_0_cons (r : record) (q0 q1 q2 q3 : List record) :
    dequeue_at (std_config (r :: q0) q1 q2 q3) 0
      = some (record_from_slot sizeof_generic_sensor_data r,
              std_config q0 q1 q2 q3) := rfl

lemma dequeue_at_std_1_nil (q0 q2 q3 : List record) :
    dequeue_at (std_config q0 [] q2 q3) 1 = none := rfl

lemma dequeue_at_std_1_cons (r : record) (q0 q1 q2 q3 : List record) :
    dequeue_at (std_config q0 (r :: q1) q2 q3) 1
      = some (record_from_slot sizeof_generic_sensor_data r,
              std_config q0 q1 q2 q3) := rfl

lemma step_fst_std_0 (ts us : String) (q0 q1 q2 q3 : List record) :
    mqtt_publish_step_fst ts us (std_config q0 q1 q2 q3) 0
      = std_config q0.tail q1 q2 q3 := by
  unfold mqtt_publish_step_fst
  dsimp only
  have ht : topicAt (std_config q0 q1 q2 q3) 0
      = std_topic "response_read" PUBLISH DATA_STRUCT_RESPONSE_READ q0 := rfl
  rw [ht]
  simp only [std_topic, mk_queue, Option.isNone_some, Bool.false_eq_true,
    if_false, if_pos rfl]
  rw [mqtt_publish_topic_fst]
  dsimp only
  rw [mqtt_publish_response_read_fst]
  rw [if_pos trivial]
  simp only [data_struct_index]
  cases q0 with
  | nil => rw [dequeue_at_std_0_nil]; rfl
  | cons r rest => rw [dequeue_at_std_0_cons]; rfl

lemma step_fst_std_1 (ts us : String) (q0 q1 q2 q3 : List record) :
    mqtt_publish_step_fst ts us (std_config q0 q1 q2 q3) 1
      = std_config q0 q1.tail q2 q3 := by
  unfold mqtt_publish_step_fst
  dsimp only
  have ht : topicAt (std_config q0 q1 q2 q3) 1
      = std_topic "response_write" PUBLISH DATA_STRUCT_RESPONSE_WRITE q1 := rfl
  rw [ht]
  simp only [std_topic, mk_queue, Option.isNone_some, Bool.false_eq_true,
    if_false, if_pos rfl]
  rw [mqtt_publish_topic_fst]
  dsimp only
  rw [mqtt_publish_response_write_fst]
  rw [if_pos trivial]
  simp only [data_struct_index]
  cases q1 with
  | nil => rw [dequeue_at_std_1_nil]; rfl
  | cons r rest => rw [dequeue_at_std_1_cons]; rfl

lemma step_fst_std_2 (ts us : String) (q0 q1 q2 q3 : List record) :
    mqtt_publish_step_fst ts us (std_config q0 q1 q2 q3) 2
      = std_config q0 q1 q2 q3 := by
  unfold mqtt_publish_step_fst
  dsimp only
  have ht : topicAt (std_config q0 q1 q2 q3) 2
      = std_topic "command_write" SUBSCRIBE DATA_STRUCT_COMMAND_WRITE q2 := rfl
  rw [ht]
  simp [std_topic, mk_queue]

lemma step_fst_std_3 (ts us : String) (q0 q1 q2 q3 : List record) :
    mqtt_publish_step_fst ts us (std_config q0 q1 q2 q3) 3
      = std_config q0 q1 q2 q3 := by
  unfold mqtt_publish_step_fst
  dsimp only
  have ht : topicAt (std_config q0 q1 q2 q3) 3
      = std_topic "command_config" SUBSCRIBE DATA_STRUCT_COMMAND_CONFIG q3 := rfl
  rw [ht]
  simp [std_topic, mk_queue]

set_option maxRecDepth 8192 in
/-- C4 counterexample: with two ReadResponse records queued on the
`response_read` topic, one outbound pass transmits exactly one message
and leaves the second record in the queue — the pass does not drain the
queue completely. -/
theorem spec_c4_drain_counterexample :
    (mqtt_publish
        (std_config [record.rread ⟨1, 1, 1, List.replicate 16 0⟩,
                     record.rread ⟨2, 1, 1, List.replicate 16 0⟩] [] [] [])
        "2024-12-24T15:30:45" "AABBCCDDEEFF").2.length = 1 ∧
    queue_items (mqtt_publish
        (std_config [record.rread ⟨1, 1, 1, List.replicate 16 0⟩,
                     record.rread ⟨2, 1, 1, List.replicate 16 0⟩] [] [] [])
        "2024-12-24T15:30:45" "AABBCCDDEEFF").1 0
      = [record.rread ⟨2, 1, 1, List.replicate 16 0⟩] := by
  decide

/-- C4 amended: in one dispatch tick the outbound pass visits the
initialized topics in registration (array) order and performs a single
bounded-wait dequeue per PUBLISH-direction topic, so it transmits at
most one record per topic per tick (at most one message per
`mqtt_publish_topic` call, hence at most `count` messages per pass), and
on the reference registry exactly the head record of each
PUBLISH-direction queue is removed — the rest stay queued for later
ticks and SUBSCRIBE queues are untouched. -/
theorem spec_c4_outbound_one_per_topic :
    (∀ (cfg : global_config_st) (ts us : String) (t : mqtt_topic_st),
      (mqtt_publish_topic cfg ts us t).2.length ≤ 1) ∧
    (∀ (cfg : global_config_st) (ts us : String),
      (mqtt_publish cfg ts us).2.length ≤ cfg.initalized_mqtt_topics_count) ∧
    (∀ (ts us : String) (q0 q1 q2 q3 : List record),
      (mqtt_publish (std_config q0 q1 q2 q3) ts us).1
        = std_config q0.tail q1.tail q2 q3) := by
  refine ⟨fun cfg ts us t => mqtt_publish_topic_len cfg ts us t, ?_, ?_⟩
  · intro cfg ts us
    have h := mqtt_publish_foldl_len ts us
      (List.range cfg.initalized_mqtt_topics_count) (cfg, [])
    simpa [mqtt_publish] using h
  · intro ts us q0 q1 q2 q3
    unfold mqtt_publish
    rw [mqtt_publish_foldl_fst]
    rw [show (std_config q0 q1 q2 q3).initalized_mqtt_topics_count = 4 from rfl]
    rw [show List.range 4 = [0, 1, 2, 3] by decide]
    simp only [List.foldl_cons, List.foldl_nil]
    rw [step_fst_std_0, step_fst_std_1, step_fst_std_2, step_fst_std_3]

lemma enqueue_at_std_2 (a b c d : List record) (r : record)
    (h : c.length < MAX_QUEUE_SIZE) :
    enqueue_at (std_config a b c d) 2 r = (true, std_config a b (c ++ [r]) d) := by
  unfold enqueue_at
  rw [show (topicAt (std_config a b c d) 2).queue = some (mk_queue c) from rfl]
  dsimp only
  unfold xQueueSend
  rw [if_neg (show ¬ ((mk_queue c).items.length ≥ (mk_queue c).capacity)
    from not_le.mpr h)]
  rfl

lemma enqueue_at_std_3 (a b c d : List record) (r : record)
    (h : d.length < MAX_QUEUE_SIZE) :
    enqueue_at (std_config a b c d) 3 r = (true, std_config a b c (d ++ [r])) := by
  unfold enqueue_at
  rw [show (topicAt (std_config a b c d) 3).queue = some (mk_queue d) from rfl]
  dsimp only
  unfold xQueueSend
  rw [if_neg (show ¬ ((mk_queue d).items.length ≥ (mk_queue d).capacity)
    from not_le.mpr h)]
  rfl

lemma cb_step_std_0 (dW : String → command_write_st)
    (dC : String → command_config_st) (ch ed : String)
    (a b c d : List record) :
    mqtt_subscribe_cb_step dW dC ch ed (std_config a b c d) 0
      = std_config a b c d := rfl

lemma cb_step_std_1 (dW : String → command_write_st)
    (dC : String → command_config_st) (ch ed : String)
    (a b c d : List record) :
    mqtt_subscribe_cb_step dW dC ch ed (std_config a b c d) 1
      = std_config a b c d := rfl

lemma cb_step_std_2_match (dW : String → command_write_st)
    (dC : String → command_config_st) (ch ed : String)
    (a b c d : List record)
    (hm : strstr_contains ch.toList ("command_write").toList = true)
    (hlen : c.length < MAX_QUEUE_SIZE) :
    mqtt_subscribe_cb_step dW dC ch ed (std_config a b c d) 2
      = std_config a b (c ++ [record.cwrite (dW ed)]) d := by
  unfold mqtt_subscribe_cb_step
  dsimp only
  rw [show topicAt (std_config a b c d) 2
      = std_topic "command_write" SUBSCRIBE DATA_STRUCT_COMMAND_WRITE c
      from rfl]
  simp only [std_topic, mk_queue, Option.isNone_some, Bool.false_eq_true,
    if_false]
  rw [if_neg (by decide)]
  rw [if_neg (by rw [hm]; simp)]
  show (enqueue_at (std_config a b c d) 2 (record.cwrite (dW ed))).2 = _
  rw [enqueue_at_std_2 a b c d _ hlen]

lemma cb_step_std_2_nomatch (dW : String → command_write_st)
    (dC : String → command_config_st) (ch ed : String)
    (a b c d : List record)
    (hm : strstr_contains ch.toList ("command_write").toList = false) :
    mqtt_subscribe_cb_step dW dC ch ed (std_config a b c d) 2
      = std_config a b c d := by
  unfold mqtt_subscribe_cb_step
  dsimp only
  rw [show topicAt (std_config a b c d) 2
      = std_topic "command_write" SUBSCRIBE DATA_STRUCT_COMMAND_WRITE c
      from rfl]
  simp only [std_topic, mk_queue, Option.isNone_some, Bool.false_eq_true,
    if_false]
  rw [if_neg (by decide)]
  rw [if_pos (by rw [hm]; simp)]

lemma cb_step_std_3_match (dW : String → command_write_st)
    (dC : String → command_config_st) (ch ed : String)
    (a b c d : List record)
    (hm : strstr_contains ch.toList ("command_config").toList = true)
    (hlen : d.length < MAX_QUEUE_SIZE) :
    mqtt_subscribe_cb_step dW dC ch ed (std_config a b c d) 3
      = std_config a b c (d ++ [record.cconfig (dC ed)]) := by
  unfold mqtt_subscribe_cb_step
  dsimp only
  rw [show topicAt (std_config a b c d) 3
      = std_topic "command_config" SUBSCRIBE DATA_STRUCT_COMMAND_CONFIG d
      from rfl]
  simp only [std_topic, mk_queue, Option.isNone_some, Bool.false_eq_true,
    if_false]
  rw [if_neg (by decide)]
  rw [if_neg (by rw [hm]; simp)]
  show (enqueue_at (std_config a b c d) 3 (record.cconfig (dC ed))).2 = _
  rw [enqueue_at_std_3 a b c d _ hlen]

lemma cb_step_std_3_nomatch (dW : String → command_write_st)
    (dC : String → command_config_st) (ch ed : String)
    (a b c d : List record)
    (hm : strstr_contains ch.toList ("command_config").toList = false) :
    mqtt_subscribe_cb_step dW dC ch ed (std_config a b c d) 3
      = std_config a b c d := by
  unfold mqtt_subscribe_cb_step
  dsimp only
  rw [show topicAt (std_config a b c d) 3
      = std_topic "command_config" SUBSCRIBE DATA_STRUCT_COMMAND_CONFIG d
      from rfl]
  simp only [std_topic, mk_queue, Option.isNone_some, Bool.false_eq_true,
    if_false]
  rw [if_neg (by decide)]
  rw [if_pos (by rw [hm]; simp)]

set_option maxRecDepth 4096 in
/-- C3 counterexample: a single received message whose channel string
contains both SUBSCRIBE topic names ("command_write" and
"command_config") is decoded and enqueued by EVERY matching topic, not
only the first: after one callback invocation both the command_write
queue and the command_config queue hold one record each, refuting the
claim that no other topic's queue receives a record from that message. -/
theorem spec_c3_first_match_counterexample :
    queue_items (mqtt_subscribe_topic_callback (std_config [] [] [] [])
        (fun _ => default) (fun _ => default)
        "/titanium/AABBCCDDEEFF/command_write/command_config" "x") 2
      = [record.cwrite default] ∧
    queue_items (mqtt_subscribe_topic_callback (std_config [] [] [] [])
        (fun _ => default) (fun _ => default)
        "/titanium/AABBCCDDEEFF/command_write/command_config" "x") 3
      = [record.cconfig default] := by
  decide

/-- C3 amended: the dispatch callback scans every SUBSCRIBE-direction
topic and decodes+enqueues for EVERY matching topic (there is no break
after the first match), enqueuing to the queue of the slot indexed by
the matching topic's type tag; in particular, when a message matches
exactly one of the two SUBSCRIBE topics of the reference registry,
exactly that topic's queue receives exactly one decoded record and
every other queue and registry entry is unchanged. -/
theorem spec_c3_inbound_routing
    (dW : String → command_write_st) (dC : String → command_config_st)
    (ch ed : String) (q0 q1 q2 q3 : List record) (hed : ed.length ≠ 0) :
    (strstr_contains ch.toList ("command_write").toList = true →
     strstr_contains ch.toList ("command_config").toList = false →
     q2.length < MAX_QUEUE_SIZE →
     mqtt_subscribe_topic_callback (std_config q0 q1 q2 q3) dW dC ch ed
       = std_config q0 q1 (q2 ++ [record.cwrite (dW ed)]) q3) ∧
    (strstr_contains ch.toList ("command_write").toList = false →
     strstr_contains ch.toList ("command_config").toList = true →
     q3.length < MAX_QUEUE_SIZE →
     mqtt_subscribe_topic_callback (std_config q0 q1 q2 q3) dW dC ch ed
       = std_config q0 q1 q2 (q3 ++ [record.cconfig (dC ed)])) ∧
    (strstr_contains ch.toList ("command_write").toList = true →
     strstr_contains ch.toList ("command_config").toList = true →
     q2.length < MAX_QUEUE_SIZE → q3.length < MAX_QUEUE_SIZE →
     mqtt_subscribe_topic_callback (std_config q0 q1 q2 q3) dW dC ch ed
       = std_config q0 q1 (q2 ++ [record.cwrite (dW ed)])
           (q3 ++ [record.cconfig (dC ed)])) := by
  have hstart : ∀ cfg : global_config_st,
      mqtt_subscribe_topic_callback cfg dW dC ch ed
        = (List.range cfg.initalized_mqtt_topics_count).foldl
            (mqtt_subscribe_cb_step dW dC ch ed) cfg := by
    intro cfg
    unfold mqtt_subscribe_topic_callback
    rw [if_neg hed]
  refine ⟨fun hw hc hlen => ?_, fun hw hc hlen => ?_, fun hw hc hl2 hl3 => ?_⟩
  all_goals
    rw [hstart]
    rw [show (std_config q0 q1 q2 q3).initalized_mqtt_topics_count = 4 from rfl]
    rw [show List.range 4 = [0, 1, 2, 3] by decide]
    simp only [List.foldl_cons, List.foldl_nil]
    rw [cb_step_std_0, cb_step_std_1]
  · rw [cb_step_std_2_match dW dC ch ed q0 q1 q2 q3 hw hlen]
    rw [cb_step_std_3_nomatch dW dC ch ed q0 q1 _ q3 hc]
  · rw [cb_step_std_2_nomatch dW dC ch ed q0 q1 q2 q3 hw]
    rw [cb_step_std_3_match dW dC ch ed q0 q1 q2 q3 hc hlen]
  · rw [cb_step_std_2_match dW dC ch ed q0 q1 q2 q3 hw hl2]
    rw [cb_step_std_3_match dW dC ch ed q0 q1 _ q3 hc hl3]

/-- Witness for the amended C3: the normal single-match delivery on the
command_write channel. -/
theorem spec_c3_inbound_routing_witness :
    mqtt_subscribe_topic_callback (std_config [] [] [] [])
        (fun _ => default) (fun _ => default)
        "/titanium/AABBCCDDEEFF/command_write" "x"
      = std_config [] [] [record.cwrite default] [] :=
  (spec_c3_inbound_routing (fun _ => default) (fun _ => default)
      "/titanium/AABBCCDDEEFF/command_write" "x" [] [] [] []
      (by decide)).1 (by decide) (by decide) (by decide)

lemma queue_items_enqueue_ne (cfg : global_config_st) (i j : Nat)
    (r : record) (h : i ≠ j) :
    queue_items (enqueue_at cfg i r).2 j = queue_items cfg j := by
  unfold enqueue_at
  cases hq : (topicAt cfg i).queue with
  | none => rfl
  | some q =>
    dsimp only
    unfold queue_items
    rw [topicAt_setTopicAt_ne cfg _ h]

lemma queue_items_dequeue_ne (cfg : global_config_st) (i j : Nat)
    (h : i ≠ j) (rc : record) (c2 : global_config_st)
    (hd : dequeue_at cfg i = some (rc, c2)) :
    queue_items c2 j = queue_items cfg j := by
  unfold dequeue_at at hd
  cases hq : (topicAt cfg i).queue with
  | none => rw [hq] at hd; exact absurd hd (by simp)
  | some q =>
    rw [hq] at hd
    dsimp only at hd
    cases hx : xQueueReceive q with
    | none => rw [hx] at hd; exact absurd hd (by simp)
    | some s =>
      obtain ⟨r0, q2⟩ := s
      rw [hx] at hd
      dsimp only at hd
      injection hd with hd1
      injection hd1 with hrc hc2
      rw [← hc2]
      unfold queue_items
      rw [topicAt_setTopicAt_ne cfg _ h]

lemma app_loop_body_frame (cfg : global_config_st) (cc : command_config_st)
    (u : Nat) (inp : app_input) :
    (app_loop_body cfg cc u inp).2.1 = cc ∧
    (app_loop_body cfg cc u inp).2.2.2 = loop_ctl.cont ∧
    queue_items (app_loop_body cfg cc u inp).1
        (data_struct_index DATA_STRUCT_COMMAND_CONFIG)
      = queue_items cfg (data_struct_index DATA_STRUCT_COMMAND_CONFIG) := by
  unfold app_loop_body
  by_cases hm : cc.mode = READ
  · rw [if_pos hm]
    cases inp.tag with
    | none => exact ⟨rfl, rfl, rfl⟩
    | some uid =>
      dsimp only
      by_cases hr : inp.read_ok = true
      · rw [if_pos hr]
        exact ⟨rfl, rfl, queue_items_enqueue_ne cfg _ _ _ (by decide)⟩
      · rw [if_neg hr]
        exact ⟨rfl, rfl, rfl⟩
  · rw [if_neg hm]
    cases hd : dequeue_at cfg (data_struct_index DATA_STRUCT_COMMAND_WRITE) with
    | none => exact ⟨rfl, rfl, rfl⟩
    | some s =>
      obtain ⟨rc, cfg2⟩ := s
      dsimp only
      have h3 : queue_items cfg2 (data_struct_index DATA_STRUCT_COMMAND_CONFIG)
          = queue_items cfg (data_struct_index DATA_STRUCT_COMMAND_CONFIG) :=
        queue_items_dequeue_ne cfg _ _ (by decide) rc cfg2 hd
      exact ⟨rfl, rfl, by
        rw [queue_items_enqueue_ne cfg2 _ _ _ (by decide), h3]⟩

lemma app_run_frame (ins : Nat → app_input) :
    ∀ (n : Nat) (cfg : global_config_st) (cc : command_config_st) (u : Nat),
    (app_run ins n cfg cc u).2.1 = cc ∧
    queue_items (app_run ins n cfg cc u).1
        (data_struct_index DATA_STRUCT_COMMAND_CONFIG)
      = queue_items cfg (data_struct_index DATA_STRUCT_COMMAND_CONFIG) := by
  intro n
  induction n with
  | zero => intro cfg cc u; exact ⟨rfl, rfl⟩
  | succ m ih =>
    intro cfg cc u
    have hb := app_loop_body_frame cfg cc u (ins m)
    have hr := ih (app_loop_body cfg cc u (ins m)).1
      (app_loop_body cfg cc u (ins m)).2.1
      (app_loop_body cfg cc u (ins m)).2.2.1
    unfold app_run
    refine ⟨?_, ?_⟩
    · rw [hr.1, hb.1]
    · rw [hr.2, hb.2.2]

/-- C1: the claim fails on the code — `application_task_execute` never
dequeues the command_config topic's queue: no branch of the loop body
reads it or assigns the loop-local `command_config`, so after any number
of iterations from the initial {sector 1, block 1, READ} configuration
the mode is still READ and an enqueued command_config record with
mode = WRITE sits in its queue unconsumed forever (the WRITE branch is
unreachable). -/
theorem spec_c1_mode_never_switches :
    (∀ (cfg : global_config_st) (cc : command_config_st) (u : Nat)
        (inp : app_input),
      (app_loop_body cfg cc u inp).2.1 = cc ∧
      queue_items (app_loop_body cfg cc u inp).1
          (data_struct_index DATA_STRUCT_COMMAND_CONFIG)
        = queue_items cfg (data_struct_index DATA_STRUCT_COMMAND_CONFIG)) ∧
    (∀ (ins : Nat → app_input) (n : Nat) (cfg : global_config_st),
      (app_run ins n cfg app_init_config 0).2.1 = app_init_config ∧
      (app_run ins n cfg app_init_config 0).2.1.mode = READ ∧
      queue_items (app_run ins n cfg app_init_config 0).1
          (data_struct_index DATA_STRUCT_COMMAND_CONFIG)
        = queue_items cfg (data_struct_index DATA_STRUCT_COMMAND_CONFIG)) ∧
    (∀ (ins : Nat → app_input) (n : Nat),
      queue_items (app_run ins n
          (std_config [] [] [] [record.cconfig ⟨2, 0, WRITE⟩])
          app_init_config 0).1
          (data_struct_index DATA_STRUCT_COMMAND_CONFIG)
        = [record.cconfig ⟨2, 0, WRITE⟩]) := by
  refine ⟨fun cfg cc u inp => ⟨(app_loop_body_frame cfg cc u inp).1,
    (app_loop_body_frame cfg cc u inp).2.2⟩, fun ins n cfg => ?_, ?_⟩
  · have h := app_run_frame ins n cfg app_init_config 0
    exact ⟨h.1, by rw [h.1]; rfl, h.2⟩
  · intro ins n
    have h := app_run_frame ins n
      (std_config [] [] [] [record.cconfig ⟨2, 0, WRITE⟩]) app_init_config 0
    rw [h.2]
    rfl

lemma sntp_run_exits (years : Nat → Int) :
    ∀ (k i : Nat) (st : sntp_state), st.is_sntp_synced = false →
    120 ≤ years (i + k) →
    (sntp_run years true i (k + 1) st).2 = true ∧
    (sntp_run years true i (k + 1) st).1.time_synced_bit = true ∧
    (sntp_run years true i (k + 1) st).1.is_sntp_synced = true := by
  intro k
  induction k with
  | zero =>
    intro i st hs hy
    rw [Nat.add_zero] at hy
    unfold sntp_run sntp_loop_body sntp_task_sync_time_obtain_time
    rw [if_pos rfl, if_neg (not_lt.mpr hy)]
    dsimp only
    exact ⟨rfl, rfl, rfl⟩
  | succ m ih =>
    intro i st hs hy
    by_cases hfirst : years i < 120
    · have hstep : sntp_run years true i (m + 1 + 1) st
          = sntp_run years true (i + 1) (m + 1)
              { st with is_sntp_initialized := true,
                        time_synced_bit := false } := by
        unfold sntp_run sntp_loop_body sntp_task_sync_time_obtain_time
        rw [if_pos rfl, if_pos hfirst]
        dsimp only
        rw [if_neg (by rw [hs]; simp)]
        rfl
      rw [hstep]
      exact ih (i + 1) _ (by simpa using hs)
        (by rw [show i + 1 + m = i + (m + 1) by omega]; exact hy)
    · unfold sntp_run sntp_loop_body sntp_task_sync_time_obtain_time
      rw [if_pos rfl, if_neg hfirst]
      dsimp only
      exact ⟨rfl, rfl, rfl⟩

lemma mqtt_client_loop_body_cont (st : mqtt_task_state)
    (a b c : Bool) (ts us : String) :
    (mqtt_client_loop_body st a b c ts us).2.2 = loop_ctl.cont := by
  unfold mqtt_client_loop_body
  split
  · split
    · rfl
    · split
      · rfl
      · rfl
  · split
    · rfl
    · rfl

/-- C9: the time-sync task terminates: started after the Wi-Fi wait
(which returns only with WIFI_CONNECTED_STA set), if at some iteration
`k` the observed wall-clock year is 2020 or later (tm_year ≥ 120), the
loop sets the TIME_SYNCED bit and `is_sntp_synced`, exits via its break
within k+1 iterations — after which the task deletes itself — while the
MQTT client task loop and the actuator task loop have no break: every
iteration falls through to the next one. -/
theorem spec_c9_sntp_terminates :
    (∀ (years : Nat → Int) (k : Nat), 120 ≤ years k →
      (sntp_run years true 0 (k + 1) sntp_init_state).2 = true ∧
      (sntp_run years true 0 (k + 1) sntp_init_state).1.time_synced_bit = true ∧
      (sntp_run years true 0 (k + 1) sntp_init_state).1.is_sntp_synced = true) ∧
    (∀ (st : mqtt_task_state) (a b c : Bool) (ts us : String),
      (mqtt_client_loop_body st a b c ts us).2.2 = loop_ctl.cont) ∧
    (∀ (cfg : global_config_st) (cc : command_config_st) (u : Nat)
        (inp : app_input),
      (app_loop_body cfg cc u inp).2.2.2 = loop_ctl.cont) := by
  refine ⟨fun years k hy => ?_, mqtt_client_loop_body_cont,
    fun cfg cc u inp => (app_loop_body_frame cfg cc u inp).2.1⟩
  exact sntp_run_exits years k 0 sntp_init_state rfl (by simpa using hy)

/-- Witness for C9: a clock that reports year 2020 at the first
iteration makes the task exit immediately with the bit set. -/
theorem spec_c9_sntp_terminates_witness :
    (sntp_run (fun _ => (120 : Int)) true 0 1 sntp_init_state).2 = true ∧
    (sntp_run (fun _ => (120 : Int)) true 0 1 sntp_init_state).1.time_synced_bit
      = true :=
  ⟨(spec_c9_sntp_terminates.1 (fun _ => (120 : Int)) 0 (by decide)).1,
   (spec_c9_sntp_terminates.1 (fun _ => (120 : Int)) 0 (by decide)).2.1⟩

set_option maxRecDepth 8192 in
/-- C8 evaluated at its failing inputs: the claim that the outbound pass
transmits a payload carrying the record's uid, block, sector and data is
defeated twice by the code.  (1) The spec's own scenario record, with
uid 0x0102030405060708, is dequeued and dropped with
ESP_ERR_INVALID_SIZE — its decimal rendering has 17 characters and fails
the 16-byte `uuid_string` buffer check — so nothing is transmitted at
all.  (2) Even for a record whose uid fits (uid 1234, sector 1, block 1,
data all 7), the 8-byte queue slots (element size
sizeof(generic_sensor_data_st), global_config.c:62) truncate the
enqueued record to its leading uid, so the one transmitted message does
go out on `/titanium/<device-id>/response_read` with the field order
timestamp, uid, block, sector, data and the record's uid — but carries
"block": 0, "sector": 0 and an all-zero 16-element data array instead of
the record's values. -/
theorem spec_c8_payload_at_failing_inputs :
    (mqtt_publish
        (std_config [record.rread ⟨0x0102030405060708, 1, 1,
          List.replicate 16 0⟩] [] [] [])
        "2024-12-24T15:30:45" "AABBCCDDEEFF").2 = [] ∧
    (mqtt_publish_response_read
        (std_config [record.rread ⟨0x0102030405060708, 1, 1,
          List.replicate 16 0⟩] [] [] [])
        "2024-12-24T15:30:45").1 = ESP_ERR_INVALID_SIZE ∧
    (Nat.repr 0x0102030405060708).length = 17 ∧
    (mqtt_publish
        (std_config [record.rread ⟨1234, 1, 1, List.replicate 16 7⟩] [] [] [])
        "2024-12-24T15:30:45" "AABBCCDDEEFF").2
      = [⟨"/titanium/AABBCCDDEEFF/response_read",
          "\x7b\"timestamp\": \"2024-12-24T15:30:45\", \"uid\": 1234, \"block\": 0, \"sector\": 0, \"data\": [0, 0, 0, 0, 0, 0, 0, 0, 0, 0, 0, 0, 0, 0, 0, 0]\x7d",
          1⟩] := by
  decide
